import Mathlib

/-!
# Verification of the BFMR deal-bot core against its specification

Shallow embedding of the deal-processing core of the BFMR repository:
the incremental reservation loop (`BfmrWeb.reserveIncrementally`, both the
class-method variant and the standalone near-duplicate), the deal filter
(`DealManager.isDealActionable`), the selection loop of
`DealManager.fetchAndFilterDeals`, the multi-retailer orchestrator
(`Monitor.processDeal`) and the Amazon-only legacy orchestrator
(`Monitor.processAmazonDeal`).

JavaScript numbers used for prices are embedded as `ℚ`; unit counts and
attempt counters are `ℕ`.  Asynchronous browser calls are embedded as
explicit inputs (an outcome for each call, indexed by call number) and as
effect traces listing the externally visible calls an orchestrator makes.
-/

namespace BFMR


/-! ## Reservation outcomes

`BfmrWeb.reserveDeal` returns `{success, status}` where `status` ranges over
the string literals found in the source (`'reserved'`, `'closed'`,
`'limit_reached'`, `'error'`, `'failed'`, `'unknown'`, `'not_submitted'`). -/

inductive ReserveStatus where
  | reserved
  | closed
  | limit_reached
  | error
  | failed
  | unknown
  | not_submitted
deriving DecidableEq, Repr

/-- Result of one underlying `reserveDeal` call: `{success, status}`. -/
structure ReserveOutcome where
  success : Bool
  status : ReserveStatus
deriving DecidableEq, Repr

/-- Result shape of `reserveIncrementally`:
`{success, totalReserved, attempts}` plus the `verificationMismatch` flag the
class-method variant adds on one return path. -/
structure IncResult where
  success : Bool
  totalReserved : Nat
  attempts : Nat
  verificationMismatch : Bool := false
deriving DecidableEq, Repr

/-- Result of `verifyReservation` as read by `reserveIncrementally`:
`{found, quantity}` plus the `verificationSkipped` flag the loop tests
(the implementations of `verifyReservation` never set it, but the mock
sequence quantifies over it). -/
structure VerificationResult where
  found : Bool
  quantity : Nat
  verificationSkipped : Bool
deriving DecidableEq, Repr

/-! ## The reservation loop, class-method variant (`unnamed/part_000`, 948-991)

The `while (continueReserving)` loop is embedded with an explicit fuel
argument; the source's safety cap (`if (attempts >= 25) continueReserving =
false`) makes 25 iterations an upper bound, and fuel adequacy is proved below
(`reserveLoopWeb_fuel_irrelevant` inside the termination theorem).
The outcome of the `k`-th underlying `reserveDeal` call (0-indexed) is
`outcomes k`. The pair returned is `(totalReserved, attempts)`. -/

def reserveLoopWeb (outcomes : Nat → ReserveOutcome) (batchSize : Nat) :
    Nat → Nat → Nat → Nat × Nat
  | 0, totalReserved, attempts => (totalReserved, attempts)
  | fuel + 1, totalReserved, attempts =>
    -- attempts++
    let attempts' := attempts + 1
    let result := outcomes attempts
    if result.success then
      -- totalReserved += batchSize; continueReserving stays true
      let totalReserved' := totalReserved + batchSize
      if attempts' ≥ 25 then (totalReserved', attempts')
      else reserveLoopWeb outcomes batchSize fuel totalReserved' attempts'
    else
      -- every failure branch of the source sets continueReserving = false:
      -- 'limit_reached', 'closed' / 'error', 'not_submitted', and the final else
      if result.status = .limit_reached then (totalReserved, attempts')
      else if result.status = .closed ∨ result.status = .error then (totalReserved, attempts')
      else if result.status = .not_submitted then (totalReserved, attempts')
      else (totalReserved, attempts')

/-! ## The reservation loop, standalone variant
(`src/buyer/incremental-reserve-method.js`, 7-58)

Identical structure; its failure branches are `'closed'`/`'error'`,
`'unknown'`, and a final else — again all of them stop the loop. -/

def reserveLoopStandalone (outcomes : Nat → ReserveOutcome) (batchSize : Nat) :
    Nat → Nat → Nat → Nat × Nat
  | 0, totalReserved, attempts => (totalReserved, attempts)
  | fuel + 1, totalReserved, attempts =>
    let attempts' := attempts + 1
    let result := outcomes attempts
    if result.success then
      let totalReserved' := totalReserved + batchSize
      if attempts' ≥ 25 then (totalReserved', attempts')
      else reserveLoopStandalone outcomes batchSize fuel totalReserved' attempts'
    else
      if result.status = .closed ∨ result.status = .error then (totalReserved, attempts')
      else if result.status = .unknown then (totalReserved, attempts')
      else (totalReserved, attempts')

/-- `reserveIncrementally` of the standalone file: run the loop, return
`{success: totalReserved > 0, totalReserved, attempts}`.  No verification
step exists in this variant. -/
def reserveIncrementallyStandalone (outcomes : Nat → ReserveOutcome)
    (batchSize : Nat := 2) : IncResult :=
  let r := reserveLoopStandalone outcomes batchSize 25 0 0
  { success := decide (0 < r.1), totalReserved := r.1, attempts := r.2 }

/-- `BfmrWeb.reserveIncrementally` (`unnamed/part_000`, 948-1033): run the
loop, then — when `totalReserved > 0` — read the tracker through
`verifyReservation` and branch exactly as the source does.  The
"claimed-not-found" branch only logs and falls through to the common return;
the "different quantity" branch returns the claimed `totalReserved` with
`verificationMismatch: true`; the remaining branch falls through. -/
def reserveIncrementallyWeb (outcomes : Nat → ReserveOutcome)
    (batchSize : Nat := 2) (verification : VerificationResult) : IncResult :=
  let r := reserveLoopWeb outcomes batchSize 25 0 0
  let totalReserved := r.1
  let attempts := r.2
  if 0 < totalReserved then
    if ¬verification.found ∧ ¬verification.verificationSkipped then
      -- warning logged, debug screenshot attempted, then FALLBACK: proceed
      { success := decide (0 < totalReserved), totalReserved, attempts }
    else if verification.quantity ≠ totalReserved ∧ ¬verification.verificationSkipped then
      { success := true, totalReserved, attempts, verificationMismatch := true }
    else
      { success := decide (0 < totalReserved), totalReserved, attempts }
  else
    { success := decide (0 < totalReserved), totalReserved, attempts }

/-- The mock of spec §8: the reserve call succeeds exactly `n` times and
then reports `limit_reached`. -/
def succeedsThenLimit (n : Nat) : Nat → ReserveOutcome := fun k =>
  if k < n then { success := true, status := .reserved }
  else { success := false, status := .limit_reached }

/-- A mock whose every call succeeds. -/
def alwaysSucceeds : Nat → ReserveOutcome :=
  fun _ => { success := true, status := .reserved }

/-- A verification read that never fires a mismatch (found with whatever
quantity the caller claimed is irrelevant here; this is the neutral input
used where a concrete `VerificationResult` is needed). -/
def verificationNeutral : VerificationResult :=
  { found := true, quantity := 0, verificationSkipped := true }

/-! ## Deals and the deal filter (`unnamed/part_008`)

Prices are JavaScript numbers; they are embedded as `ℚ`.  The retailer-link
matching of the source lowercases the retailer name and tests
`.includes('amazon')` / `.includes('best buy')`. -/

/-- `r.toLowerCase().includes(pat)` for an already-lowercase `pat`. -/
def includesLower (r pat : String) : Bool :=
  decide (pat.toList <:+: r.toList.map Char.toLower)

structure RetailerLink where
  retailer : String
  url : String
deriving DecidableEq, Repr

/-- The fields of a board deal the core consults.  `links1` embeds the
`deal.items[0].retailer_links` array (`none` when that path is absent),
`links2` the fallback `deal.items.items` array. -/
structure Deal where
  deal_id : Nat
  deal_code : String
  retail_price : ℚ
  payout_price : ℚ
  links1 : Option (List RetailerLink)
  links2 : Option (List RetailerLink)
  is_reservation_closed : Bool
deriving DecidableEq, Repr

/-- The filter thresholds read from `config.filters || config`. -/
structure Filters where
  min_profit_margin_percent : ℚ
  min_payout : ℚ
  only_open_deals : Bool
deriving DecidableEq, Repr

/-- The per-retailer settings as resolved by the source:
`amazonEnabled = retailer_settings?.amazon?.enabled !== false`,
`bestbuyEnabled = retailer_settings?.bestbuy?.enabled === true`, and the
`max_per_order || default` quantities. -/
structure RetailerSettings where
  amazonEnabled : Bool
  bestbuyEnabled : Bool
  amazonMaxQty : Nat
  bestbuyMaxQty : Nat
deriving DecidableEq, Repr

/-- `OrderManager.hasDeal` (`src/tracker/order-manager.js`): the order ledger
is embedded as the list of `dealCode`s of its orders. -/
def ordersHasDeal (orders : List String) (dealCode : String) : Bool :=
  orders.contains dealCode

/-- One retailer link matches when its lowercased name includes the pattern
and the retailer is enabled — the predicate inside the source's `.some(...)`
scans. -/
def linkActionable (amazonEnabled bestbuyEnabled : Bool) (l : RetailerLink) : Bool :=
  if includesLower l.retailer "amazon" ∧ amazonEnabled then true
  else if includesLower l.retailer "best buy" ∧ bestbuyEnabled then true
  else false

/-- `DealManager.isDealActionable` (`unnamed/part_008`, 192-263), check for
check in source order: order-ledger, profit margin, minimum payout, enabled
retailer availability over both link shapes, open status. -/
def isDealActionable (filters : Filters) (settings : RetailerSettings)
    (orders : List String) (deal : Deal) : Bool :=
  if ordersHasDeal orders deal.deal_code then false
  else
    let profit := deal.payout_price - deal.retail_price
    let marginPercent := profit / deal.retail_price * 100
    if marginPercent < filters.min_profit_margin_percent then false
    else if deal.payout_price < filters.min_payout then false
    else
      let hasActionable1 :=
        match deal.links1 with
        | some ls => ls.any (linkActionable settings.amazonEnabled settings.bestbuyEnabled)
        | none => false
      let hasActionableRetailer :=
        if hasActionable1 then true
        else
          match deal.links2 with
          | some ls => ls.any (linkActionable settings.amazonEnabled settings.bestbuyEnabled)
          | none => false
      if ¬hasActionableRetailer then false
      else if filters.only_open_deals ∧ deal.is_reservation_closed then false
      else true

/-! ## Selection loop of `DealManager.fetchAndFilterDeals`
(`unnamed/part_008`, 166-190)

Only the in-memory sets decide selection: a deal currently in
`processingDeals` is skipped; an actionable deal is selected and immediately
added to `processingDeals`.  The source's own comment: "We no longer skip
based on processedDeals". -/

/-- The two in-memory id sets owned by `DealManager`. -/
structure DealManagerState where
  processedDeals : List Nat
  processingDeals : List Nat
deriving DecidableEq, Repr

/-- `DealManager.markAsProcessed`. -/
def markAsProcessed (dealId : Nat) (s : DealManagerState) : DealManagerState :=
  { processedDeals := dealId :: s.processedDeals,
    processingDeals := s.processingDeals.filter (· ≠ dealId) }

/-- `DealManager.markAsFailed`: only removes the id from the processing set. -/
def markAsFailed (dealId : Nat) (s : DealManagerState) : DealManagerState :=
  { s with processingDeals := s.processingDeals.filter (· ≠ dealId) }

/-- The `for (const deal of apiDeals)` selection loop at the end of
`fetchAndFilterDeals`: skip in-flight deals, select actionable ones and mark
them in-flight at once.  Returns `(actionableDeals, newState)`. -/
def selectDeals (filters : Filters) (settings : RetailerSettings)
    (orders : List String) (s : DealManagerState) :
    List Deal → List Deal × DealManagerState
  | [] => ([], s)
  | deal :: rest =>
    if s.processingDeals.contains deal.deal_id then
      selectDeals filters settings orders s rest
    else if isDealActionable filters settings orders deal then
      let s' := { s with processingDeals := deal.deal_id :: s.processingDeals }
      let r := selectDeals filters settings orders s' rest
      (deal :: r.1, r.2)
    else
      selectDeals filters settings orders s rest

/-! ## `Monitor.processDeal`, multi-retailer variant (`unnamed/part_000`, 1391-1549)

The orchestrator's browser-driven collaborators are embedded as an
environment fixing the outcome of each external call, and the orchestrator
itself as a function from that environment to the trace of external calls it
makes plus the resulting `DealManager` state. -/

/-- Externally visible calls made by the multi-retailer `processDeal`. -/
inductive MEffect where
  | validateAmazon
  | loginScrape
  | scrapeDealPage
  | validateBestbuy
  | loginReserve
  | reserveCall (dealCode : String) (batchSize : Nat) (maxTotal : Nat)
  | buyAmazon (qty : Nat)
  | bestbuyManual (qty : Nat)
deriving DecidableEq, Repr

/-- Outcomes of the external calls `processDeal` can make. -/
structure ProcessDealEnv where
  amazonValid : Bool
  creds : Bool
  bbScrapedUrl : Option String
  bbValid : Bool
  reserveOutcomes : Nat → ReserveOutcome
  verification : VerificationResult

/-- `.find(l => l.retailer && l.retailer.toLowerCase().includes(pat))?.url`. -/
def findLink (ls : List RetailerLink) (pat : String) : Option String :=
  (ls.find? fun l => includesLower l.retailer pat).map (·.url)

/-- Amazon-link extraction at the top of `processDeal`: primary shape
`items[0].retailer_links`, fallback shape `items.items` only when the
primary yielded nothing. -/
def amazonLinkOf (deal : Deal) : Option String :=
  match deal.links1.bind (findLink · "amazon") with
  | some u => some u
  | none => deal.links2.bind (findLink · "amazon")

/-- A retailer that passed validation, as pushed onto `validRetailers`. -/
structure ValidRetailer where
  name : String
  maxQty : Nat
deriving DecidableEq, Repr

/-- Phase 1 of `processDeal`: validate every enabled retailer, returning the
`validRetailers` list (in validation order: Amazon before Best Buy) and the
trace of external calls made while validating.  Best Buy validation first
logs in to the board and scrapes the deal page for a Best Buy URL; with no
credentials it silently does nothing. -/
def validatePhase (settings : RetailerSettings) (env : ProcessDealEnv)
    (deal : Deal) : List ValidRetailer × List MEffect :=
  let amz :=
    if settings.amazonEnabled ∧ (amazonLinkOf deal).isSome then
      if env.amazonValid then
        ([ValidRetailer.mk "amazon" settings.amazonMaxQty], [MEffect.validateAmazon])
      else ([], [MEffect.validateAmazon])
    else ([], [])
  let bb :=
    if settings.bestbuyEnabled then
      if env.creds then
        match env.bbScrapedUrl with
        | some _ =>
          if env.bbValid then
            ([ValidRetailer.mk "bestbuy" settings.bestbuyMaxQty],
             [MEffect.loginScrape, MEffect.scrapeDealPage, MEffect.validateBestbuy])
          else ([], [MEffect.loginScrape, MEffect.scrapeDealPage, MEffect.validateBestbuy])
        | none => ([], [MEffect.loginScrape, MEffect.scrapeDealPage])
      else ([], [])
    else ([], [])
  (amz.1 ++ bb.1, amz.2 ++ bb.2)

/-- Phase 4 of `processDeal`: split the reserved quantity across the
validated retailers in order; `qty = min(remaining, maxQty)`, stop early when
nothing remains.  Returns the per-retailer quantities and the leftover
`remaining`. -/
def allocate (remaining : Nat) : List ValidRetailer → List (String × Nat) × Nat
  | [] => ([], remaining)
  | r :: rest =>
    if remaining ≤ 0 then ([], remaining)
    else
      let qty := min remaining r.maxQty
      let tail := allocate (remaining - qty) rest
      ((r.name, qty) :: tail.1, tail.2)

/-- The commit each allocated retailer receives: cart-add for Amazon, the
manual-add record for Best Buy. -/
def buyEffect (nq : String × Nat) : Option MEffect :=
  if nq.1 = "amazon" then some (MEffect.buyAmazon nq.2)
  else if nq.1 = "bestbuy" then some (MEffect.bestbuyManual nq.2)
  else none

/-- `Monitor.processDeal` (`unnamed/part_000`, 1391-1549): validate all
retailers, abort (marking the deal failed) when none validated or
credentials are missing, otherwise log in and call
`reserveIncrementally(dealCode, 2, totalBuyable)` — whose implementation
takes no third parameter — abort when nothing was reserved, and finally
allocate and commit.  Every terminal path ends in `markAsFailed`, which
removes the deal id from the in-flight set. -/
def processDeal (settings : RetailerSettings) (env : ProcessDealEnv)
    (deal : Deal) (dm : DealManagerState) : List MEffect × DealManagerState :=
  let vp := validatePhase settings env deal
  let validRetailers := vp.1
  let effects1 := vp.2
  let totalBuyable := (validRetailers.map (·.maxQty)).sum
  if validRetailers = [] then
    (effects1, markAsFailed deal.deal_id dm)
  else if ¬env.creds then
    (effects1, markAsFailed deal.deal_id dm)
  else
    let reserveResult := reserveIncrementallyWeb env.reserveOutcomes 2 env.verification
    let effects2 := effects1 ++
      [MEffect.loginReserve, MEffect.reserveCall deal.deal_code 2 totalBuyable]
    if ¬reserveResult.success ∨ reserveResult.totalReserved = 0 then
      (effects2, markAsFailed deal.deal_id dm)
    else
      let alloc := allocate reserveResult.totalReserved validRetailers
      (effects2 ++ alloc.1.filterMap buyEffect, markAsFailed deal.deal_id dm)

/-! ## `Monitor.processAmazonDeal`, Amazon-only legacy variant
(`unnamed/part_004`, 200-350) -/

/-- Statuses of the Amazon cart-add result the handler branches on; `failed`
stands for every status string not matched by a dedicated branch. -/
inductive CartStatus where
  | added_to_cart
  | price_mismatch
  | out_of_stock
  | used_or_renewed
  | verification_failed
  | failed
deriving DecidableEq, Repr

/-- The `logger.logDeal` action string of each cart-add status. -/
def cartAction : CartStatus → String
  | .added_to_cart => "added_to_cart"
  | .price_mismatch => "price_mismatch"
  | .out_of_stock => "out_of_stock"
  | .used_or_renewed => "used_or_renewed"
  | .verification_failed => "verification_failed"
  | .failed => "failed"

/-- Externally visible calls made by `processAmazonDeal`. -/
inductive AEffect where
  | validateAmazon
  | logDeal (action : String)
  | login
  | scrapeDealPage
  | reserveCall (dealCode : String) (batchSize : Nat)
  | buyItem (qty : Nat)
  | unreserve (dealCode : String)
  | markProcessed
  | markFailed
  | stopPolling
deriving DecidableEq, Repr

/-- Outcomes of the external calls `processAmazonDeal` can make. -/
structure AmzEnv where
  validationValid : Bool
  validationReason : String
  creds : Bool
  loginSuccess : Bool
  loginFatal : Bool
  loginFailuresBefore : Nat
  scrapedLimit : Option Nat
  reserveOutcomes : Nat → ReserveOutcome
  verification : VerificationResult
  cartSuccess : Bool
  cartStatus : CartStatus

/-- The `logger.logDeal` action recorded when Amazon validation fails with
the given reason. -/
def validationAction (reason : String) : String :=
  if reason = "price_mismatch" then "price_mismatch"
  else if reason = "out_of_stock" then "out_of_stock"
  else if reason = "used_or_renewed" then "used_or_renewed"
  else if reason = "price_detection_failed" then "price_detection_failed"
  else "validation_failed"

/-- JavaScript truthiness of `bfmrData.limit`. -/
def limitTruthy : Option Nat → Bool
  | some n => n ≠ 0
  | none => false

/-- Step-3 result handling of `processAmazonDeal` (`unnamed/part_004`,
305-347): exactly the `price_mismatch`, `out_of_stock` and
`used_or_renewed` branches call `unreserveDeal`; `verification_failed` and
the generic failure branch only mark the deal failed. -/
def handleCartResult (dealCode : String) (dealId : Nat)
    (success : Bool) (status : CartStatus) (dm : DealManagerState) :
    List AEffect × DealManagerState :=
  if success ∧ status = .added_to_cart then
    ([AEffect.logDeal "added_to_cart", AEffect.markProcessed], markAsProcessed dealId dm)
  else if status = .price_mismatch then
    ([AEffect.logDeal "price_mismatch", AEffect.unreserve dealCode, AEffect.markProcessed],
     markAsProcessed dealId dm)
  else if status = .out_of_stock then
    ([AEffect.logDeal "out_of_stock", AEffect.unreserve dealCode, AEffect.markProcessed],
     markAsProcessed dealId dm)
  else if status = .used_or_renewed then
    ([AEffect.logDeal "used_or_renewed", AEffect.unreserve dealCode, AEffect.markProcessed],
     markAsProcessed dealId dm)
  else if status = .verification_failed then
    ([AEffect.logDeal "verification_failed", AEffect.markFailed], markAsFailed dealId dm)
  else
    ([AEffect.logDeal "failed", AEffect.markFailed], markAsFailed dealId dm)

/-- `Monitor.processAmazonDeal` (`unnamed/part_004`, 200-350): validate the
Amazon listing (failure marks the deal processed and skips the board
entirely), log in to the board, scrape the scraped quantity limit, reserve
incrementally, and — when units were reserved, or on the "partial failure"
branch — commit the cart addition and handle its result. -/
def processAmazonDeal (env : AmzEnv) (deal : Deal) (dm : DealManagerState) :
    List AEffect × DealManagerState :=
  if ¬env.validationValid then
    ([AEffect.validateAmazon, AEffect.logDeal (validationAction env.validationReason)],
     markAsProcessed deal.deal_id dm)
  else if ¬env.creds then
    ([AEffect.validateAmazon, AEffect.logDeal "no_credentials"], dm)
  else if ¬env.loginSuccess then
    if env.loginFatal then
      if env.loginFailuresBefore + 1 ≥ 2 then
        ([AEffect.validateAmazon, AEffect.login, AEffect.stopPolling], dm)
      else
        ([AEffect.validateAmazon, AEffect.login, AEffect.logDeal "login_failed"], dm)
    else
      ([AEffect.validateAmazon, AEffect.login, AEffect.logDeal "login_error"], dm)
  else if ¬limitTruthy env.scrapedLimit then
    ([AEffect.validateAmazon, AEffect.login, AEffect.scrapeDealPage,
      AEffect.logDeal "no_limit"], dm)
  else
    let prefix1 := [AEffect.validateAmazon, AEffect.login, AEffect.scrapeDealPage,
      AEffect.reserveCall deal.deal_code 2]
    let reserveResult := reserveIncrementallyWeb env.reserveOutcomes 2 env.verification
    if reserveResult.success ∧ 0 < reserveResult.totalReserved then
      let qty := reserveResult.totalReserved
      let hc := handleCartResult deal.deal_code deal.deal_id env.cartSuccess env.cartStatus dm
      (prefix1 ++ [AEffect.buyItem qty] ++ hc.1, hc.2)
    else if reserveResult.totalReserved = 0 then
      (prefix1 ++ [AEffect.logDeal "reservation_failed"], dm)
    else
      -- "Partial failure" branch: logged, processing continues with the
      -- scraped limit as quantity
      let qty := (env.scrapedLimit).getD 0
      let hc := handleCartResult deal.deal_code deal.deal_id env.cartSuccess env.cartStatus dm
      (prefix1 ++ [AEffect.buyItem qty] ++ hc.1, hc.2)

/-! ## Derived counters and concrete inputs used by the theorems below -/

/-- The externally observable part `(success, totalReserved, attempts)` of a
`reserveIncrementally` result. -/
def IncResult.visible (r : IncResult) : Bool × Nat × Nat :=
  (r.success, r.totalReserved, r.attempts)

/-- Number of successful reserve calls among the first `n` calls of an
outcome sequence. -/
def numSuccesses (o : Nat → ReserveOutcome) (n : Nat) : Nat :=
  ((List.range n).filter fun i => (o i).success).length

/-- A permissive filter configuration: no margin or payout floor, open deals
only. -/
def filtersX : Filters :=
  { min_profit_margin_percent := 0, min_payout := 0, only_open_deals := true }

/-- Amazon enabled with `max_per_order` 3, Best Buy disabled. -/
def settingsX : RetailerSettings :=
  { amazonEnabled := true, bestbuyEnabled := false,
    amazonMaxQty := 3, bestbuyMaxQty := 2 }

/-- A concrete actionable deal with an Amazon link: 20% margin, open. -/
def dealX : Deal :=
  { deal_id := 1, deal_code := "DEAL1",
    retail_price := 100, payout_price := 120,
    links1 := some [{ retailer := "Amazon", url := "https://amazon.example/p" }],
    links2 := none, is_reservation_closed := false }

/-- An environment in which `processDeal` runs through a successful commit:
Amazon validates, credentials present, reservation succeeds three times then
hits the limit. -/
def envX : ProcessDealEnv :=
  { amazonValid := true, creds := true,
    bbScrapedUrl := none, bbValid := false,
    reserveOutcomes := succeedsThenLimit 3,
    verification := verificationNeutral }

/-- An environment in which Amazon validation fails (and Best Buy is not
enabled in `settingsX`), so that `processDeal` validates zero retailers. -/
def envNoValid : ProcessDealEnv :=
  { amazonValid := false, creds := true,
    bbScrapedUrl := none, bbValid := false,
    reserveOutcomes := succeedsThenLimit 3,
    verification := verificationNeutral }

/-- An environment in which `processAmazonDeal` reaches the cart-add step
after a successful reservation of 6 units, and the cart-add then fails with
a status with no dedicated branch. -/
def envC6 : AmzEnv :=
  { validationValid := true, validationReason := "",
    creds := true, loginSuccess := true, loginFatal := false,
    loginFailuresBefore := 0, scrapedLimit := some 4,
    reserveOutcomes := succeedsThenLimit 3,
    verification := verificationNeutral,
    cartSuccess := false, cartStatus := .failed }


/-! ## Helper lemmas about the reservation loops -/


theorem reserveLoopWeb_failure (o : Nat → ReserveOutcome) (b fuel t a : Nat)
    (h : (o a).success = false) :
    reserveLoopWeb o b (fuel + 1) t a = (t, a + 1) := by
  simp only [reserveLoopWeb, h, Bool.false_eq_true, if_false]
  simp only [ite_self]

theorem reserveLoopWeb_success (o : Nat → ReserveOutcome) (b fuel t a : Nat)
    (h : (o a).success = true) :
    reserveLoopWeb o b (fuel + 1) t a =
      if a + 1 ≥ 25 then (t + b, a + 1)
      else reserveLoopWeb o b fuel (t + b) (a + 1) := by
  simp only [reserveLoopWeb, h, if_true]

theorem reserveLoopStandalone_failure (o : Nat → ReserveOutcome) (b fuel t a : Nat)
    (h : (o a).success = false) :
    reserveLoopStandalone o b (fuel + 1) t a = (t, a + 1) := by
  simp only [reserveLoopStandalone, h, Bool.false_eq_true, if_false]
  simp only [ite_self]

theorem reserveLoopStandalone_success (o : Nat → ReserveOutcome) (b fuel t a : Nat)
    (h : (o a).success = true) :
    reserveLoopStandalone o b (fuel + 1) t a =
      if a + 1 ≥ 25 then (t + b, a + 1)
      else reserveLoopStandalone o b fuel (t + b) (a + 1) := by
  simp only [reserveLoopStandalone, h, if_true]

theorem reserveLoop_web_eq_standalone (o : Nat → ReserveOutcome) (b : Nat) :
    ∀ fuel t a, reserveLoopWeb o b fuel t a = reserveLoopStandalone o b fuel t a := by
  intro fuel
  induction fuel with
  | zero => intro t a; rfl
  | succ f ih =>
    intro t a
    cases hs : (o a).success with
    | false =>
      rw [reserveLoopWeb_failure o b f t a hs, reserveLoopStandalone_failure o b f t a hs]
    | true =>
      rw [reserveLoopWeb_success o b f t a hs, reserveLoopStandalone_success o b f t a hs]
      by_cases h25 : a + 1 ≥ 25
      · simp [h25]
      · simp only [h25, if_false, ih]



theorem reserveLoopWeb_attempts_mono (o : Nat → ReserveOutcome) (b : Nat) :
    ∀ fuel t a, a ≤ (reserveLoopWeb o b fuel t a).2 := by
  intro fuel
  induction fuel with
  | zero => intro t a; exact Nat.le_refl a
  | succ f ih =>
    intro t a
    cases hs : (o a).success with
    | false => rw [reserveLoopWeb_failure o b f t a hs]; exact Nat.le_succ a
    | true =>
      rw [reserveLoopWeb_success o b f t a hs]
      by_cases h25 : a + 1 ≥ 25
      · simp only [h25, if_true]; exact Nat.le_succ a
      · simp only [h25, if_false]
        exact Nat.le_trans (Nat.le_succ a) (ih (t + b) (a + 1))

theorem reserveLoopWeb_attempts_lb (o : Nat → ReserveOutcome) (b fuel t a : Nat)
    (h : 1 ≤ fuel) : a + 1 ≤ (reserveLoopWeb o b fuel t a).2 := by
  obtain ⟨f, rfl⟩ : ∃ f, fuel = f + 1 :=
    ⟨fuel - 1, by omega⟩
  cases hs : (o a).success with
  | false => rw [reserveLoopWeb_failure o b f t a hs]
  | true =>
    rw [reserveLoopWeb_success o b f t a hs]
    by_cases h25 : a + 1 ≥ 25
    · simp only [h25, if_true]
      omega
    · simp only [h25, if_false]
      exact reserveLoopWeb_attempts_mono o b f (t + b) (a + 1)


theorem reserveLoopWeb_attempts_ub (o : Nat → ReserveOutcome) (b : Nat) :
    ∀ fuel t a, a < 25 → (reserveLoopWeb o b fuel t a).2 ≤ 25 := by
  intro fuel
  induction fuel with
  | zero => intro t a h; exact Nat.le_of_lt h
  | succ f ih =>
    intro t a h
    cases hs : (o a).success with
    | false => rw [reserveLoopWeb_failure o b f t a hs]; omega
    | true =>
      rw [reserveLoopWeb_success o b f t a hs]
      by_cases h25 : a + 1 ≥ 25
      · simp only [h25, if_true]; omega
      · simp only [h25, if_false]; exact ih (t + b) (a + 1) (by omega)

theorem reserveLoopWeb_total_mono (o : Nat → ReserveOutcome) (b : Nat) :
    ∀ fuel t a, t ≤ (reserveLoopWeb o b fuel t a).1 := by
  intro fuel
  induction fuel with
  | zero => intro t a; exact Nat.le_refl t
  | succ f ih =>
    intro t a
    cases hs : (o a).success with
    | false => rw [reserveLoopWeb_failure o b f t a hs]
    | true =>
      rw [reserveLoopWeb_success o b f t a hs]
      by_cases h25 : a + 1 ≥ 25
      · simp only [h25, if_true]; exact Nat.le_add_right t b
      · simp only [h25, if_false]
        exact Nat.le_trans (Nat.le_add_right t b) (ih (t + b) (a + 1))

theorem numSuccesses_succ (o : Nat → ReserveOutcome) (a : Nat) :
    numSuccesses o (a + 1) = numSuccesses o a + (if (o a).success then 1 else 0) := by
  simp only [numSuccesses, List.range_succ, List.filter_append, List.length_append]
  cases hs : (o a).success <;> simp [hs]

theorem reserveLoopWeb_count (o : Nat → ReserveOutcome) (b : Nat) :
    ∀ fuel t a,
      (reserveLoopWeb o b fuel t a).1 + b * numSuccesses o a
        = t + b * numSuccesses o (reserveLoopWeb o b fuel t a).2 := by
  intro fuel
  induction fuel with
  | zero => intro t a; rfl
  | succ f ih =>
    intro t a
    cases hs : (o a).success with
    | false =>
      rw [reserveLoopWeb_failure o b f t a hs, numSuccesses_succ o a, hs]
      simp
    | true =>
      rw [reserveLoopWeb_success o b f t a hs]
      by_cases h25 : a + 1 ≥ 25
      · simp only [h25, if_true]
        rw [numSuccesses_succ o a, hs]
        simp [Nat.mul_add]
        omega
      · simp only [h25, if_false]
        have h4 := ih (t + b) (a + 1)
        rw [numSuccesses_succ o a, hs] at h4
        simp only [if_true, Nat.mul_add, Nat.mul_one] at h4
        omega

theorem reserveLoopWeb_fuel_irrelevant (o : Nat → ReserveOutcome) (b : Nat) :
    ∀ fuel₁ fuel₂ t a, a < 25 → 25 ≤ fuel₁ + a → 25 ≤ fuel₂ + a →
      reserveLoopWeb o b fuel₁ t a = reserveLoopWeb o b fuel₂ t a := by
  intro fuel₁
  induction fuel₁ with
  | zero => intro fuel₂ t a h1 h2 h3; omega
  | succ f ih =>
    intro fuel₂ t a h1 h2 h3
    obtain ⟨g, rfl⟩ : ∃ g, fuel₂ = g + 1 := ⟨fuel₂ - 1, by omega⟩
    cases hs : (o a).success with
    | false =>
      rw [reserveLoopWeb_failure o b f t a hs, reserveLoopWeb_failure o b g t a hs]
    | true =>
      rw [reserveLoopWeb_success o b f t a hs, reserveLoopWeb_success o b g t a hs]
      by_cases h25 : a + 1 ≥ 25
      · simp only [h25, if_true]
      · simp only [h25, if_false]
        exact ih g (t + b) (a + 1) (by omega) (by omega) (by omega)

theorem reserveIncrementallyWeb_visible (o : Nat → ReserveOutcome) (b : Nat)
    (v : VerificationResult) :
    (reserveIncrementallyWeb o b v).visible =
      (decide (0 < (reserveLoopWeb o b 25 0 0).1),
       (reserveLoopWeb o b 25 0 0).1, (reserveLoopWeb o b 25 0 0).2) := by
  unfold reserveIncrementallyWeb IncResult.visible
  by_cases h0 : 0 < (reserveLoopWeb o b 25 0 0).1
  · simp only [h0, if_true]
    split_ifs with h1 h2 <;> simp [h0]
  · simp only [h0, if_false]

theorem reserveIncrementallyStandalone_spec (o : Nat → ReserveOutcome) (b : Nat) :
    reserveIncrementallyStandalone o b =
      { success := decide (0 < (reserveLoopStandalone o b 25 0 0).1),
        totalReserved := (reserveLoopStandalone o b 25 0 0).1,
        attempts := (reserveLoopStandalone o b 25 0 0).2 } := rfl



/-! ## Claims about the incremental reservation protocol -/

/-- Claim C1: the specification requires `reserveIncrementally(dealCode,
batchSize, maxTotal)` to stop as soon as `totalReserved ≥ maxTotal`, and on
the mock succeeding exactly 3 times with `batchSize = 2`, `maxTotal = 6` to
return `{success: true, totalReserved: 6, attempts: 3}`.  The implementation
has no `maxTotal` parameter at all (the caller passes `totalBuyable` as a
third argument, which is silently dropped): on that mock it makes a fourth
attempt, returning `attempts = 4`, and under an always-succeeding mock it
accumulates `25 × batchSize = 50` units, overshooting any requested
`maxTotal` without bound. -/
theorem reserveIncrementally_ignores_maxTotal :
    reserveIncrementallyWeb (succeedsThenLimit 3) 2 verificationNeutral
      = { success := true, totalReserved := 6, attempts := 4 } ∧
    (reserveIncrementallyWeb alwaysSucceeds 2 verificationNeutral).totalReserved = 50 := by
  decide

/-- Claim C5: the result of `BfmrWeb.reserveIncrementally` does not depend on
the verification read: two runs over the same outcome sequence with any two
`verifyReservation` results return the same `(success, totalReserved,
attempts)`, and whenever `totalReserved > 0` the function returns
`success = true` with the originally accumulated total. -/
theorem reserveIncrementallyWeb_verification_independent
    (o : Nat → ReserveOutcome) (b : Nat) (v₁ v₂ : VerificationResult) :
    (reserveIncrementallyWeb o b v₁).visible = (reserveIncrementallyWeb o b v₂).visible ∧
    (0 < (reserveIncrementallyWeb o b v₁).totalReserved →
      (reserveIncrementallyWeb o b v₁).success = true ∧
      (reserveIncrementallyWeb o b v₁).totalReserved = (reserveLoopWeb o b 25 0 0).1) := by
  have h1 := reserveIncrementallyWeb_visible o b v₁
  have h2 := reserveIncrementallyWeb_visible o b v₂
  simp only [IncResult.visible, Prod.ext_iff] at h1 h2
  obtain ⟨hs1, ht1, ha1⟩ := h1
  refine ⟨?_, ?_⟩
  · simp only [IncResult.visible, Prod.ext_iff]
    obtain ⟨hs2, ht2, ha2⟩ := h2
    exact ⟨hs1.trans hs2.symm, ht1.trans ht2.symm, ha1.trans ha2.symm⟩
  · intro hpos
    rw [ht1] at hpos
    rw [hs1, ht1]
    exact ⟨decide_eq_true hpos, rfl⟩

/-- Witness for C5 at a concrete mock: a "not found" verification and a
"wrong quantity" verification give the same visible result, with the
claimed 6 units and `success = true`. -/
theorem reserveIncrementallyWeb_verification_independent_witness :
    (reserveIncrementallyWeb (succeedsThenLimit 3) 2
        { found := false, quantity := 0, verificationSkipped := false }).visible
      = (reserveIncrementallyWeb (succeedsThenLimit 3) 2
        { found := true, quantity := 1, verificationSkipped := false }).visible ∧
    (reserveIncrementallyWeb (succeedsThenLimit 3) 2
        { found := false, quantity := 0, verificationSkipped := false }).success = true ∧
    (reserveIncrementallyWeb (succeedsThenLimit 3) 2
        { found := false, quantity := 0, verificationSkipped := false }).totalReserved
      = (reserveLoopWeb (succeedsThenLimit 3) 2 25 0 0).1 :=
  ⟨(reserveIncrementallyWeb_verification_independent (succeedsThenLimit 3) 2
      { found := false, quantity := 0, verificationSkipped := false }
      { found := true, quantity := 1, verificationSkipped := false }).1,
   (reserveIncrementallyWeb_verification_independent (succeedsThenLimit 3) 2
      { found := false, quantity := 0, verificationSkipped := false }
      { found := true, quantity := 1, verificationSkipped := false }).2 (by decide)⟩

/-- Claim C7: the standalone and class-method implementations of
`reserveIncrementally` agree for every sequence of reserve-call outcomes
(all statuses included): same attempts, same accumulated total, same
returned `{success, totalReserved, attempts}` — in both, every unsuccessful
status terminates the loop. -/
theorem reserveIncrementally_variants_equivalent
    (o : Nat → ReserveOutcome) (b : Nat) (v : VerificationResult) :
    (reserveIncrementallyWeb o b v).success = (reserveIncrementallyStandalone o b).success ∧
    (reserveIncrementallyWeb o b v).totalReserved
      = (reserveIncrementallyStandalone o b).totalReserved ∧
    (reserveIncrementallyWeb o b v).attempts = (reserveIncrementallyStandalone o b).attempts := by
  have h1 := reserveIncrementallyWeb_visible o b v
  simp only [IncResult.visible, Prod.ext_iff] at h1
  obtain ⟨hs1, ht1, ha1⟩ := h1
  rw [reserveIncrementallyStandalone_spec o b, ← reserveLoop_web_eq_standalone o b 25 0 0]
  exact ⟨hs1, ht1, ha1⟩

/-- Claim C9: within one run, `totalReserved` never decreases across loop
iterations, each successful batch adds exactly `batchSize`, and the returned
total equals `batchSize` times the number of successful reserve calls — for
both implementations. -/
theorem reserveIncrementally_total_batch_multiple
    (o : Nat → ReserveOutcome) (b : Nat) (v : VerificationResult) :
    (∀ fuel t a, t ≤ (reserveLoopWeb o b fuel t a).1) ∧
    (reserveIncrementallyWeb o b v).totalReserved
      = b * numSuccesses o (reserveIncrementallyWeb o b v).attempts ∧
    (reserveIncrementallyStandalone o b).totalReserved
      = b * numSuccesses o (reserveIncrementallyStandalone o b).attempts := by
  have hcount := reserveLoopWeb_count o b 25 0 0
  have h0 : numSuccesses o 0 = 0 := rfl
  rw [h0, Nat.mul_zero, Nat.add_zero, Nat.zero_add] at hcount
  have h1 := reserveIncrementallyWeb_visible o b v
  simp only [IncResult.visible, Prod.ext_iff] at h1
  obtain ⟨hs1, ht1, ha1⟩ := h1
  refine ⟨fun fuel t a => reserveLoopWeb_total_mono o b fuel t a, ?_, ?_⟩
  · rw [ht1, ha1]; exact hcount
  · rw [reserveIncrementallyStandalone_spec o b, ← reserveLoop_web_eq_standalone o b 25 0 0]
    exact hcount

/-- Claim C10: `reserveIncrementally` always terminates: the returned
attempt count lies between 1 and 25 for every outcome sequence, and giving
the loop any fuel beyond its 25-attempt safety cap does not change its
result. -/
theorem reserveIncrementally_terminates
    (o : Nat → ReserveOutcome) (b : Nat) (v : VerificationResult) :
    1 ≤ (reserveIncrementallyWeb o b v).attempts ∧
    (reserveIncrementallyWeb o b v).attempts ≤ 25 ∧
    (∀ fuel, 25 ≤ fuel → reserveLoopWeb o b fuel 0 0 = reserveLoopWeb o b 25 0 0) := by
  have h1 := reserveIncrementallyWeb_visible o b v
  simp only [IncResult.visible, Prod.ext_iff] at h1
  obtain ⟨hs1, ht1, ha1⟩ := h1
  refine ⟨?_, ?_, ?_⟩
  · rw [ha1]; exact reserveLoopWeb_attempts_lb o b 25 0 0 (by omega)
  · rw [ha1]; exact reserveLoopWeb_attempts_ub o b 25 0 0 (by omega)
  · intro fuel hfuel
    exact reserveLoopWeb_fuel_irrelevant o b fuel 25 0 0 (by omega) (by omega) (by omega)

/-- Witness for C10 at a concrete mock and concrete surplus fuel. -/
theorem reserveIncrementally_terminates_witness :
    1 ≤ (reserveIncrementallyWeb alwaysSucceeds 2 verificationNeutral).attempts ∧
    (reserveIncrementallyWeb alwaysSucceeds 2 verificationNeutral).attempts ≤ 25 ∧
    reserveLoopWeb alwaysSucceeds 2 40 0 0 = reserveLoopWeb alwaysSucceeds 2 25 0 0 :=
  ⟨(reserveIncrementally_terminates alwaysSucceeds 2 verificationNeutral).1,
   (reserveIncrementally_terminates alwaysSucceeds 2 verificationNeutral).2.1,
   (reserveIncrementally_terminates alwaysSucceeds 2 verificationNeutral).2.2 40 (by omega)⟩



/-! ## Claims about the deal filter and the orchestrators -/

theorem ordersHasDeal_actionable_false (filters : Filters) (settings : RetailerSettings)
    (orders : List String) (deal : Deal)
    (h : ordersHasDeal orders deal.deal_code = true) :
    isDealActionable filters settings orders deal = false := by
  simp only [isDealActionable, h, if_true]

/-- Claim C8: for every deal whose computed margin
`(payoutPrice - retailPrice) / retailPrice * 100` is strictly below the
configured `minProfitMarginPercent` (with a positive retail price, where the
rational-arithmetic embedding matches the JavaScript computation), and which
is not already in the order ledger, `isDealActionable` returns false. -/
theorem isDealActionable_rejects_low_margin (filters : Filters)
    (settings : RetailerSettings) (orders : List String) (deal : Deal)
    (hr : 0 < deal.retail_price)
    (hord : ordersHasDeal orders deal.deal_code = false)
    (hm : (deal.payout_price - deal.retail_price) / deal.retail_price * 100
        < filters.min_profit_margin_percent) :
    isDealActionable filters settings orders deal = false := by
  simp only [isDealActionable, hord, Bool.false_eq_true, if_false]
  rw [if_pos hm]

/-- Witness for C8: a deal with retail 1 and payout 1 (0% margin) against a
1% margin floor is rejected. -/
theorem isDealActionable_rejects_low_margin_witness :
    isDealActionable
      { min_profit_margin_percent := 1, min_payout := 0, only_open_deals := true }
      settingsX []
      { deal_id := 2, deal_code := "DEAL2",
        retail_price := 1, payout_price := 1,
        links1 := some [{ retailer := "Amazon", url := "u" }],
        links2 := none, is_reservation_closed := false } = false :=
  isDealActionable_rejects_low_margin _ settingsX [] _ (by simp) (by decide) (by simp)

theorem allocate_sum (rs : List ValidRetailer) : ∀ total : Nat,
    (((allocate total rs).1.map Prod.snd).sum + (allocate total rs).2 = total) := by
  induction rs with
  | nil => intro total; simp [allocate]
  | cons r rest ih =>
    intro total
    by_cases h : total ≤ 0
    · simp [allocate, h]
    · simp only [allocate, h, if_false, List.map_cons, List.sum_cons]
      have h4 := ih (total - min total r.maxQty)
      omega

/-- Claim C4: the allocation loop of `Monitor.processDeal` hands each
validated retailer `min(remaining, maxPerOrder)` in validation order, so the
committed quantities sum to at most `totalReserved`; with `totalReserved=5`
and retailers Amazon(3), Best Buy(2), Amazon gets 3, Best Buy 2, and nothing
remains. -/
theorem processDeal_allocation (total : Nat) (rs : List ValidRetailer) :
    ((allocate total rs).1.map Prod.snd).sum + (allocate total rs).2 = total ∧
    ((allocate total rs).1.map Prod.snd).sum ≤ total ∧
    allocate 5 [ValidRetailer.mk "amazon" 3, ValidRetailer.mk "bestbuy" 2]
      = ([("amazon", 3), ("bestbuy", 2)], 0) := by
  have h := allocate_sum rs total
  exact ⟨h, by omega, by decide⟩

theorem validatePhase_no_reserve (settings : RetailerSettings)
    (env : ProcessDealEnv) (deal : Deal) :
    MEffect.loginReserve ∉ (validatePhase settings env deal).2 ∧
    ∀ c bsz m, MEffect.reserveCall c bsz m ∉ (validatePhase settings env deal).2 := by
  rcases henv : env.bbScrapedUrl with _ | u <;>
    simp only [validatePhase, henv] <;>
    split_ifs <;>
    simp

theorem processDeal_state (settings : RetailerSettings) (env : ProcessDealEnv)
    (deal : Deal) (dm : DealManagerState) :
    (processDeal settings env deal dm).2 = markAsFailed deal.deal_id dm := by
  simp only [processDeal]
  split_ifs <;> rfl

/-- Claim C3: when zero enabled retailers pass validation, `processDeal`
makes no reservation call and no reservation login — its trace is exactly
the validation trace — and the deal is marked failed. -/
theorem processDeal_no_valid_retailers_no_reserve (settings : RetailerSettings)
    (env : ProcessDealEnv) (deal : Deal) (dm : DealManagerState)
    (h : (validatePhase settings env deal).1 = []) :
    (processDeal settings env deal dm).1 = (validatePhase settings env deal).2 ∧
    MEffect.loginReserve ∉ (processDeal settings env deal dm).1 ∧
    (∀ c bsz m, MEffect.reserveCall c bsz m ∉ (processDeal settings env deal dm).1) ∧
    (processDeal settings env deal dm).2 = markAsFailed deal.deal_id dm := by
  have htr : (processDeal settings env deal dm).1 = (validatePhase settings env deal).2 := by
    simp only [processDeal, h, if_true]
  have hnr := validatePhase_no_reserve settings env deal
  refine ⟨htr, ?_, ?_, processDeal_state settings env deal dm⟩
  · rw [htr]; exact hnr.1
  · intro c bsz m; rw [htr]; exact hnr.2 c bsz m

/-- Witness for C3: a concrete deal whose Amazon validation fails with Best
Buy disabled reserves nothing. -/
theorem processDeal_no_valid_retailers_no_reserve_witness :
    (processDeal settingsX envNoValid dealX ⟨[], []⟩).1
        = (validatePhase settingsX envNoValid dealX).2 ∧
    MEffect.loginReserve ∉ (processDeal settingsX envNoValid dealX ⟨[], []⟩).1 ∧
    (∀ c bsz m, MEffect.reserveCall c bsz m ∉ (processDeal settingsX envNoValid dealX ⟨[], []⟩).1) ∧
    (processDeal settingsX envNoValid dealX ⟨[], []⟩).2 = markAsFailed dealX.deal_id ⟨[], []⟩ :=
  processDeal_no_valid_retailers_no_reserve settingsX envNoValid dealX ⟨[], []⟩ (by decide)


/-! ## Concrete evaluation lemmas -/

theorem dealX_actionable : isDealActionable filtersX settingsX [] dealX = true := by
  simp [isDealActionable, filtersX, settingsX, dealX, ordersHasDeal, linkActionable,
    includesLower]
  norm_num

theorem selectX_first : selectDeals filtersX settingsX [] ⟨[], []⟩ [dealX] = ([dealX], ⟨[], [1]⟩) := by
  simp only [selectDeals, dealX_actionable, List.contains_nil, Bool.false_eq_true,
    if_false, if_true]
  rfl

theorem processX_eval :
    (processDeal settingsX envX dealX ⟨[], [1]⟩).2 = ⟨[], []⟩ ∧
    MEffect.buyAmazon 3 ∈ (processDeal settingsX envX dealX ⟨[], [1]⟩).1 := by
  decide


/-! ## Claims about de-duplication and reservation rollback -/

theorem selectDeals_processing_monotone (filters : Filters) (settings : RetailerSettings)
    (orders : List String) :
    ∀ (deals : List Deal) (dm : DealManagerState) (x : Nat),
      x ∈ dm.processingDeals →
      x ∈ ((selectDeals filters settings orders dm deals).2).processingDeals := by
  intro deals
  induction deals with
  | nil => intro dm x hx; exact hx
  | cons d rest ih =>
    intro dm x hx
    simp only [selectDeals]
    split_ifs with h1 h2
    · exact ih dm x hx
    · exact ih _ x (List.mem_cons_of_mem _ hx)
    · exact ih dm x hx

theorem selectDeals_skips_inflight (filters : Filters) (settings : RetailerSettings)
    (orders : List String) :
    ∀ (deals : List Deal) (dm : DealManagerState) (deal : Deal),
      deal.deal_id ∈ dm.processingDeals →
      deal ∉ (selectDeals filters settings orders dm deals).1 := by
  intro deals
  induction deals with
  | nil => intro dm deal h; simp [selectDeals]
  | cons d rest ih =>
    intro dm deal h
    simp only [selectDeals]
    split_ifs with h1 h2
    · exact ih dm deal h
    · intro hmem
      rcases List.mem_cons.mp hmem with rfl | hmem2
      · exact h1 (by simpa using h)
      · exact ih _ deal (List.mem_cons_of_mem _ h) hmem2
    · exact ih dm deal h

theorem selectDeals_skips_ordered (filters : Filters) (settings : RetailerSettings)
    (orders : List String) :
    ∀ (deals : List Deal) (dm : DealManagerState) (deal : Deal),
      ordersHasDeal orders deal.deal_code = true →
      deal ∉ (selectDeals filters settings orders dm deals).1 := by
  intro deals
  induction deals with
  | nil => intro dm deal h; simp [selectDeals]
  | cons d rest ih =>
    intro dm deal h
    simp only [selectDeals]
    split_ifs with h1 h2
    · exact ih dm deal h
    · intro hmem
      rcases List.mem_cons.mp hmem with rfl | hmem2
      · rw [ordersHasDeal_actionable_false filters settings orders deal h] at h2
        exact absurd h2 (by simp)
      · exact ih _ deal h hmem2
    · exact ih dm deal h

/-- Claim C2 (counterexample): with the permissive filter, a deal selected
and then fully processed — through a successful reservation and an Amazon
cart commit (`buyAmazon 3` is in the trace) — is selected again by the next
`fetchAndFilterDeals` over the same process state, because every terminal
path of `processDeal` merely clears the in-flight mark and nothing records
the deal as processed. -/
theorem processed_deal_reselected :
    (selectDeals filtersX settingsX [] ⟨[], []⟩ [dealX]).1 = [dealX] ∧
    MEffect.buyAmazon 3 ∈
      (processDeal settingsX envX dealX
        (selectDeals filtersX settingsX [] ⟨[], []⟩ [dealX]).2).1 ∧
    (selectDeals filtersX settingsX []
        (processDeal settingsX envX dealX
          (selectDeals filtersX settingsX [] ⟨[], []⟩ [dealX]).2).2 [dealX]).1
      = [dealX] := by
  refine ⟨?_, ?_, ?_⟩
  · rw [selectX_first]
  · simp only [selectX_first]
    exact processX_eval.2
  · simp only [selectX_first, processX_eval.1, selectX_first]

/-- Claim C2 (amended): the in-memory sets de-duplicate only in-flight
deals: `fetchAndFilterDeals` never selects a deal whose id is currently in
`processingDeals`, and never one already present in the order ledger (the
only cross-cycle de-duplication); `processDeal` itself always ends by
clearing the in-flight mark, so a fully processed deal is eligible again in
the next cycle. -/
theorem dedup_is_inflight_and_ledger_only (filters : Filters)
    (settings : RetailerSettings) (orders : List String)
    (deals : List Deal) (dm : DealManagerState) (deal : Deal) :
    (deal.deal_id ∈ dm.processingDeals →
      deal ∉ (selectDeals filters settings orders dm deals).1) ∧
    (ordersHasDeal orders deal.deal_code = true →
      deal ∉ (selectDeals filters settings orders dm deals).1) ∧
    (∀ (settings2 : RetailerSettings) (env : ProcessDealEnv),
      deal.deal_id ∉ ((processDeal settings2 env deal dm).2).processingDeals) := by
  refine ⟨selectDeals_skips_inflight filters settings orders deals dm deal,
    selectDeals_skips_ordered filters settings orders deals dm deal, ?_⟩
  intro settings2 env
  rw [processDeal_state settings2 env deal dm]
  simp [markAsFailed, List.mem_filter]

/-- Witness for the amended C2 at concrete inputs: an in-flight deal is not
selected, a ledger-present deal is not selected, and `processDeal` always
leaves the deal id out of the in-flight set. -/
theorem dedup_is_inflight_and_ledger_only_witness :
    dealX ∉ (selectDeals filtersX settingsX [] ⟨[], [1]⟩ [dealX]).1 ∧
    dealX ∉ (selectDeals filtersX settingsX ["DEAL1"] ⟨[], []⟩ [dealX]).1 ∧
    dealX.deal_id ∉ ((processDeal settingsX envX dealX ⟨[], [1]⟩).2).processingDeals :=
  ⟨(dedup_is_inflight_and_ledger_only filtersX settingsX [] [dealX] ⟨[], [1]⟩ dealX).1
      (by decide),
   (dedup_is_inflight_and_ledger_only filtersX settingsX ["DEAL1"] [dealX] ⟨[], []⟩ dealX).2.1
      (by decide),
   (dedup_is_inflight_and_ledger_only filtersX settingsX [] [dealX] ⟨[], [1]⟩ dealX).2.2
      settingsX envX⟩

/-- Claim C6 (counterexample): with the board reservation succeeding (6
units, `buyItem 6` in the trace) and the cart-add failing with a status
having no dedicated branch, `processAmazonDeal` marks the deal failed
without ever calling `unreserveDeal` — the reservation is left dangling. -/
theorem cart_failure_leaves_reservation :
    AEffect.unreserve "DEAL1" ∉ (processAmazonDeal envC6 dealX ⟨[], []⟩).1 ∧
    AEffect.buyItem 6 ∈ (processAmazonDeal envC6 dealX ⟨[], []⟩).1 ∧
    AEffect.markFailed ∈ (processAmazonDeal envC6 dealX ⟨[], []⟩).1 := by
  decide

/-- Claim C6 (amended): the cart-add result handler of `processAmazonDeal`
calls `unreserveDeal` exactly for the `price_mismatch`, `out_of_stock` and
`used_or_renewed` statuses — there the trace is log, unreserve, mark
processed, in that order — while `verification_failed` and every other
failure mark the deal failed without unreserving. -/
theorem handleCartResult_unreserve_iff (code : String) (id : Nat) (success : Bool)
    (status : CartStatus) (dm : DealManagerState) :
    (AEffect.unreserve code ∈ (handleCartResult code id success status dm).1 ↔
      status = CartStatus.price_mismatch ∨ status = CartStatus.out_of_stock ∨
        status = CartStatus.used_or_renewed) ∧
    ((status = CartStatus.price_mismatch ∨ status = CartStatus.out_of_stock ∨
        status = CartStatus.used_or_renewed) →
      (handleCartResult code id success status dm).1
          = [AEffect.logDeal (cartAction status), AEffect.unreserve code,
             AEffect.markProcessed] ∧
        (handleCartResult code id success status dm).2 = markAsProcessed id dm) := by
  cases status <;> cases success <;> simp [handleCartResult, cartAction]

/-- Witness for the amended C6: an out-of-stock cart result unreserves
before marking the deal processed. -/
theorem handleCartResult_unreserve_iff_witness :
    (handleCartResult "D" 7 false CartStatus.out_of_stock ⟨[], [7]⟩).1
        = [AEffect.logDeal (cartAction CartStatus.out_of_stock), AEffect.unreserve "D",
           AEffect.markProcessed] ∧
    (handleCartResult "D" 7 false CartStatus.out_of_stock ⟨[], [7]⟩).2
        = markAsProcessed 7 ⟨[], [7]⟩ :=
  (handleCartResult_unreserve_iff "D" 7 false CartStatus.out_of_stock ⟨[], [7]⟩).2
    (by decide)


end BFMR
